import Mathlib

/-!
Shallow embedding of the pojopoly core (registry, registration generator,
resolver) from the repository source. JavaScript `Map` state is modelled by
explicit state passing of total functions into `Option`; a thrown exception
is modelled as an `Except.error` result that leaves the registry state
unchanged.
-/

namespace Pojopoly

/-- The runtime union `string | number` used by the source for both
`SubTypingKey` and `SubTypeId`. JS numbers appearing as discriminants are
modelled as integers. -/
inductive StrOrNum where
  | str (s : String)
  | num (n : Int)
deriving DecidableEq, Repr

/-- Source: `type SubTypingKey = string | number`. -/
abbrev SubTypingKey := StrOrNum

/-- Source: `type SubTypeId = string | number`. -/
abbrev SubTypeId := StrOrNum

/-- Source: `type ProtocolKey = symbol`. A JS symbol is a unique opaque
token carrying a description; identity is modelled by `id`. -/
structure ProtocolKey where
  id : Nat
  description : String
deriving DecidableEq, Repr

/-- `protocolKey.toString()` on a JS symbol. -/
def ProtocolKey.toDisplayString (k : ProtocolKey) : String :=
  "Symbol(" ++ k.description ++ ")"

/-- `subtypeId.toString()` on a defined string-or-number value. -/
def StrOrNum.toDisplayString : StrOrNum → String
  | .str s => s
  | .num n => toString n

/-- A plain JS object passed to `getImpl`. Only its string-or-number keyed
fields holding string-or-number values matter for dispatch (`none` models a
missing field, i.e. `undefined`); `payload` stands for the rest of the
object identity and data. -/
structure JsRecord where
  fields : SubTypingKey → Option StrOrNum
  payload : Nat

/-- A class extending `ImplBase`: its static `subtypeId` property (`none`
when the class never declares one) and `classId` standing for the identity
of the class (its behaviour/methods). -/
structure ImplClass where
  subtypeId : Option SubTypeId
  classId : Nat
deriving DecidableEq, Repr

/-- The object produced by `new ImplClass(obj)`: the `ImplBase` constructor
stores its sole argument in the protected readonly field `v`. -/
structure ImplInstance where
  cls : ImplClass
  v : JsRecord

/-- Inner map: `Map<SubTypeId, typeof ImplBase<unknown>>`. -/
abbrev SubtypeMap := SubTypeId → Option ImplClass

/-- `ProtocolState.implMap : Map<ProtocolKey, Map<SubTypeId, ...>>`. -/
abbrev ImplMap := ProtocolKey → Option SubtypeMap

/-- A fresh `new Map()` at the inner level. -/
def SubtypeMap.empty : SubtypeMap := fun _ => none

/-- `ProtocolState.implMap` as created at module load: `new Map()`. -/
def ImplMap.empty : ImplMap := fun _ => none

/-- `subtypeMap.set(subTypeId, impl)`. -/
def SubtypeMap.set (sm : SubtypeMap) (sid : SubTypeId) (impl : ImplClass) : SubtypeMap :=
  fun s => if s = sid then some impl else sm s

/-- Source `registerImpl(protocolKey, subTypeId, impl)`: fetches the
capability sub-map, lazily creating it when absent, then sets the entry.
State passing replaces mutation of `ProtocolState.implMap`. -/
def registerImpl (m : ImplMap) (protocolKey : ProtocolKey) (subTypeId : SubTypeId)
    (impl : ImplClass) : ImplMap :=
  let subtypeMap := (m protocolKey).getD SubtypeMap.empty
  fun p => if p = protocolKey then some (subtypeMap.set subTypeId impl) else m p

/-- JS exceptions raised by the core: `new Error(msg)` or a built-in
`TypeError` (e.g. reading a property of `undefined`). -/
inductive JsError where
  | error (msg : String)
  | typeError (msg : String)
deriving DecidableEq, Repr

/-- The configuration error message thrown by the generated register
function. -/
def subtypeIdErrorMsg : String :=
  "Implementation class must have static property \"subtypeId\""

/-- The message of the TypeError raised by `undefined.toString()` while
`getImpl` builds its not-found message. -/
def undefinedToStringMsg : String :=
  "Cannot read properties of undefined (reading toString)"

/-- JS falsiness of a defined string-or-number: the empty string and the
number 0 are falsy. -/
def StrOrNum.jsFalsy : StrOrNum → Bool
  | .str s => s == ""
  | .num n => n == 0

/-- Source `generateRegisterImpl(protocolKey)`: the returned `registerFn`
checks `!impl.subtypeId` (true when the static property is absent or a
falsy string-or-number) and throws, otherwise delegates to `registerImpl`.
The new registry state is returned on success. -/
def generateRegisterImpl (protocolKey : ProtocolKey) :
    ImplClass → ImplMap → Except JsError ImplMap :=
  fun impl m =>
    match impl.subtypeId with
    | none => .error (.error subtypeIdErrorMsg)
    | some sid =>
      if sid.jsFalsy then .error (.error subtypeIdErrorMsg)
      else .ok (registerImpl m protocolKey sid impl)

/-- Running the generated register function against the registry: a thrown
error propagates and the registry is left exactly as it was. -/
def runRegister (protocolKey : ProtocolKey) (impl : ImplClass) (m : ImplMap) :
    ImplMap × Option JsError :=
  match generateRegisterImpl protocolKey impl m with
  | .ok m2 => (m2, none)
  | .error e => (m, some e)

/-- Source `getImpl(protocolKey, subTypingKey, obj)`: reads
`obj[subTypingKey]`, fetches the capability sub-map (throwing `Protocol ...
not found` when absent), then looks up the extracted value. When the lookup
misses and the extracted value is `undefined`, the not-found branch
evaluates `subtypeId.toString()` on `undefined`, so a TypeError is raised
instead of the lookup Error. On success, `new ImplClass(obj)`. -/
def getImpl (m : ImplMap) (protocolKey : ProtocolKey) (subTypingKey : SubTypingKey)
    (obj : JsRecord) : Except JsError ImplInstance :=
  let subtypeId := obj.fields subTypingKey
  match m protocolKey with
  | none => .error (.error ("Protocol <" ++ protocolKey.toDisplayString ++ "> not found"))
  | some subtypeMap =>
    match subtypeId with
    | none => .error (.typeError undefinedToStringMsg)
    | some sid =>
      match subtypeMap sid with
      | none => .error (.error ("Implementation <" ++ sid.toDisplayString ++ "> not found"))
      | some implClass => .ok ⟨implClass, obj⟩

/-- `getImpl` never writes the registry: its post-state is its pre-state. -/
def runGetImpl (m : ImplMap) (protocolKey : ProtocolKey) (subTypingKey : SubTypingKey)
    (obj : JsRecord) : ImplMap × Except JsError ImplInstance :=
  (m, getImpl m protocolKey subTypingKey obj)

/-- A (capability, discriminant) entry is present in the registry. -/
def keyPresent (m : ImplMap) (p : ProtocolKey) (sid : SubTypeId) : Prop :=
  ∃ sm, m p = some sm ∧ (sm sid).isSome

/-- A sequence of low-level register operations applied in order. -/
def applyRegisters (ops : List (ProtocolKey × SubTypeId × ImplClass)) (m : ImplMap) : ImplMap :=
  ops.foldl (fun acc op => registerImpl acc op.1 op.2.1 op.2.2) m

/-! Helper lemmas shared by the claim theorems. -/

/-- Registering makes the entry resolvable on any record whose discriminant
field holds the registered discriminant value. -/
theorem getImpl_registerImpl_self (m : ImplMap) (p : ProtocolKey) (skey : SubTypingKey)
    (sid : SubTypeId) (impl : ImplClass) (obj : JsRecord)
    (h : obj.fields skey = some sid) :
    getImpl (registerImpl m p sid impl) p skey obj = .ok ⟨impl, obj⟩ := by
  simp [getImpl, registerImpl, SubtypeMap.set, h]

/-- Registering touches no other protocol key. -/
theorem registerImpl_apply_ne (m : ImplMap) (p q : ProtocolKey) (sid : SubTypeId)
    (impl : ImplClass) (h : q ≠ p) :
    registerImpl m p sid impl q = m q := by
  simp [registerImpl, h]

/-- Registering keeps every entry that was present. -/
theorem keyPresent_registerImpl (m : ImplMap) (p0 : ProtocolKey) (sid0 : SubTypeId)
    (f : ImplClass) (p : ProtocolKey) (sid : SubTypeId)
    (h : keyPresent m p sid) : keyPresent (registerImpl m p0 sid0 f) p sid := by
  obtain ⟨sm, hm, hs⟩ := h
  by_cases hp : p = p0
  · subst hp
    refine ⟨((m p).getD SubtypeMap.empty).set sid0 f, by simp [registerImpl], ?_⟩
    by_cases hsd : sid = sid0
    · simp [SubtypeMap.set, hsd]
    · simpa [SubtypeMap.set, hsd, hm] using hs
  · exact ⟨sm, by simp [registerImpl, hp, hm], hs⟩

/-- A sequence of register operations keeps every entry that was present. -/
theorem keyPresent_applyRegisters (ops : List (ProtocolKey × SubTypeId × ImplClass))
    (m : ImplMap) (p : ProtocolKey) (sid : SubTypeId)
    (h : keyPresent m p sid) : keyPresent (applyRegisters ops m) p sid := by
  induction ops generalizing m with
  | nil => exact h
  | cons op rest ih =>
    exact ih _ (keyPresent_registerImpl m op.1 op.2.1 op.2.2 p sid h)

/-- The two resolver failure messages can never coincide. -/
theorem protocolMsg_ne_implMsg (a b : String) :
    "Protocol <" ++ a ++ "> not found" ≠ "Implementation <" ++ b ++ "> not found" := by
  intro h
  have h2 := congrArg (fun s => s.data.head?) h
  simp [String.data_append] at h2

/-! Claim theorems. -/

/-- C1: registering an implementation class for a (capability, discriminant)
pair and then resolving that capability with the agreed discriminant field
name on any record whose discriminant field holds that value yields exactly
an instance of the registered class constructed with that record. -/
theorem register_then_resolve_roundtrip (m : ImplMap) (p : ProtocolKey)
    (skey : SubTypingKey) (sid : SubTypeId) (impl : ImplClass) (obj : JsRecord)
    (h : obj.fields skey = some sid) :
    getImpl (registerImpl m p sid impl) p skey obj = .ok ⟨impl, obj⟩ :=
  getImpl_registerImpl_self m p skey sid impl obj h

/-- C1 witness: a concrete round trip. -/
theorem register_then_resolve_roundtrip_witness :
    getImpl
      (registerImpl ImplMap.empty ⟨0, "MyApp.Listable"⟩ (.str "array-obj")
        ⟨some (.str "array-obj"), 1⟩)
      ⟨0, "MyApp.Listable"⟩ (.str "type")
      ⟨fun k => if k = .str "type" then some (.str "array-obj") else none, 7⟩
      = .ok ⟨⟨some (.str "array-obj"), 1⟩,
             ⟨fun k => if k = .str "type" then some (.str "array-obj") else none, 7⟩⟩ :=
  register_then_resolve_roundtrip ImplMap.empty ⟨0, "MyApp.Listable"⟩ (.str "type")
    (.str "array-obj") ⟨some (.str "array-obj"), 1⟩
    ⟨fun k => if k = .str "type" then some (.str "array-obj") else none, 7⟩ rfl

/-- C2: resolving a capability with no entries in the registry fails with
the `Protocol ... not found` error; resolving a present capability on a
string-or-number discriminant value with no registered factory fails with
the distinct `Implementation ... not found` error; both results are errors,
never a null-like success. -/
theorem getImpl_error_contract (m : ImplMap) (p : ProtocolKey)
    (skey : SubTypingKey) (obj : JsRecord) :
    (m p = none →
      getImpl m p skey obj
        = .error (.error ("Protocol <" ++ p.toDisplayString ++ "> not found"))) ∧
    (∀ sm sid, m p = some sm → obj.fields skey = some sid → sm sid = none →
      getImpl m p skey obj
        = .error (.error ("Implementation <" ++ sid.toDisplayString ++ "> not found"))) ∧
    (∀ sid, ("Protocol <" ++ p.toDisplayString ++ "> not found" : String)
        ≠ "Implementation <" ++ StrOrNum.toDisplayString sid ++ "> not found") := by
  refine ⟨fun h => by simp [getImpl, h], fun sm sid h1 h2 h3 => by simp [getImpl, h1, h2, h3],
    fun sid => protocolMsg_ne_implMsg _ _⟩

/-- C2 witness: both failure shapes at concrete inputs, with distinct
messages. -/
theorem getImpl_error_contract_witness :
    getImpl ImplMap.empty ⟨0, "MyApp.Listable"⟩ (.str "type")
      ⟨fun k => if k = .str "type" then some (.str "b") else none, 7⟩
      = .error (.error ("Protocol <" ++ ProtocolKey.toDisplayString ⟨0, "MyApp.Listable"⟩
          ++ "> not found")) ∧
    getImpl (registerImpl ImplMap.empty ⟨0, "MyApp.Listable"⟩ (.str "a")
        ⟨some (.str "a"), 1⟩)
      ⟨0, "MyApp.Listable"⟩ (.str "type")
      ⟨fun k => if k = .str "type" then some (.str "b") else none, 7⟩
      = .error (.error ("Implementation <" ++ StrOrNum.toDisplayString (.str "b")
          ++ "> not found")) ∧
    ("Protocol <" ++ ProtocolKey.toDisplayString ⟨0, "MyApp.Listable"⟩ ++ "> not found"
        : String)
      ≠ "Implementation <" ++ StrOrNum.toDisplayString (.str "b") ++ "> not found" :=
  ⟨(getImpl_error_contract ImplMap.empty ⟨0, "MyApp.Listable"⟩ (.str "type")
      ⟨fun k => if k = .str "type" then some (.str "b") else none, 7⟩).1 rfl,
   (getImpl_error_contract
      (registerImpl ImplMap.empty ⟨0, "MyApp.Listable"⟩ (.str "a") ⟨some (.str "a"), 1⟩)
      ⟨0, "MyApp.Listable"⟩ (.str "type")
      ⟨fun k => if k = .str "type" then some (.str "b") else none, 7⟩).2.1
     (SubtypeMap.set SubtypeMap.empty (.str "a") ⟨some (.str "a"), 1⟩)
     (.str "b") rfl rfl rfl,
   (getImpl_error_contract ImplMap.empty ⟨0, "MyApp.Listable"⟩ (.str "type")
      ⟨fun k => if k = .str "type" then some (.str "b") else none, 7⟩).2.2 (.str "b")⟩

/-- C3: registering f1 and then f2 under the same (capability,
discriminant) pair leaves the registry in exactly the state of registering
only f2 (no error is possible: `registerImpl` is total), and every
subsequent resolution for that pair uses f2. -/
theorem last_registration_wins (m : ImplMap) (p : ProtocolKey) (sid : SubTypeId)
    (f1 f2 : ImplClass) :
    registerImpl (registerImpl m p sid f1) p sid f2 = registerImpl m p sid f2 ∧
    (∀ skey obj, obj.fields skey = some sid →
      getImpl (registerImpl (registerImpl m p sid f1) p sid f2) p skey obj
        = .ok ⟨f2, obj⟩) := by
  refine ⟨?_, fun skey obj h => getImpl_registerImpl_self _ p skey sid f2 obj h⟩
  funext q
  by_cases hq : q = p
  · subst hq
    simp only [registerImpl, if_pos rfl, Option.getD_some, Option.some.injEq]
    funext s
    by_cases hs : s = sid <;> simp [SubtypeMap.set, hs]
  · simp [registerImpl, hq]

/-- C3 witness: a concrete duplicate registration. -/
theorem last_registration_wins_witness :
    registerImpl (registerImpl ImplMap.empty ⟨0, "MyApp.Listable"⟩ (.str "a")
        ⟨some (.str "a"), 1⟩) ⟨0, "MyApp.Listable"⟩ (.str "a") ⟨some (.str "a"), 2⟩
      = registerImpl ImplMap.empty ⟨0, "MyApp.Listable"⟩ (.str "a") ⟨some (.str "a"), 2⟩ ∧
    getImpl
      (registerImpl (registerImpl ImplMap.empty ⟨0, "MyApp.Listable"⟩ (.str "a")
        ⟨some (.str "a"), 1⟩) ⟨0, "MyApp.Listable"⟩ (.str "a") ⟨some (.str "a"), 2⟩)
      ⟨0, "MyApp.Listable"⟩ (.str "type")
      ⟨fun k => if k = .str "type" then some (.str "a") else none, 7⟩
      = .ok ⟨⟨some (.str "a"), 2⟩,
             ⟨fun k => if k = .str "type" then some (.str "a") else none, 7⟩⟩ :=
  ⟨(last_registration_wins ImplMap.empty ⟨0, "MyApp.Listable"⟩ (.str "a")
      ⟨some (.str "a"), 1⟩ ⟨some (.str "a"), 2⟩).1,
   (last_registration_wins ImplMap.empty ⟨0, "MyApp.Listable"⟩ (.str "a")
      ⟨some (.str "a"), 1⟩ ⟨some (.str "a"), 2⟩).2 (.str "type")
     ⟨fun k => if k = .str "type" then some (.str "a") else none, 7⟩ rfl⟩

/-- C4: for distinct capability keys, registering under capability B (with
any discriminant value, possibly one also used by A) leaves capability A's
sub-mapping unchanged, so every resolution of A is unchanged — A never
resolves to B's implementation. -/
theorem cross_capability_frame (m : ImplMap) (pA pB : ProtocolKey) (x : SubTypeId)
    (f : ImplClass) (hne : pA ≠ pB) :
    registerImpl m pB x f pA = m pA ∧
    ∀ skey obj, getImpl (registerImpl m pB x f) pA skey obj = getImpl m pA skey obj := by
  have h1 : registerImpl m pB x f pA = m pA := registerImpl_apply_ne m pB pA x f hne
  exact ⟨h1, fun skey obj => by simp only [getImpl, h1]⟩

/-- C4 witness: the same discriminant value registered under two distinct
capabilities; capability A still resolves to its own implementation. -/
theorem cross_capability_frame_witness :
    registerImpl (registerImpl ImplMap.empty ⟨0, "A"⟩ (.str "x") ⟨some (.str "x"), 1⟩)
        ⟨1, "B"⟩ (.str "x") ⟨some (.str "x"), 2⟩ ⟨0, "A"⟩
      = registerImpl ImplMap.empty ⟨0, "A"⟩ (.str "x") ⟨some (.str "x"), 1⟩ ⟨0, "A"⟩ ∧
    getImpl
      (registerImpl (registerImpl ImplMap.empty ⟨0, "A"⟩ (.str "x") ⟨some (.str "x"), 1⟩)
        ⟨1, "B"⟩ (.str "x") ⟨some (.str "x"), 2⟩)
      ⟨0, "A"⟩ (.str "type")
      ⟨fun k => if k = .str "type" then some (.str "x") else none, 7⟩
      = getImpl
          (registerImpl ImplMap.empty ⟨0, "A"⟩ (.str "x") ⟨some (.str "x"), 1⟩)
          ⟨0, "A"⟩ (.str "type")
          ⟨fun k => if k = .str "type" then some (.str "x") else none, 7⟩ :=
  ⟨(cross_capability_frame
      (registerImpl ImplMap.empty ⟨0, "A"⟩ (.str "x") ⟨some (.str "x"), 1⟩)
      ⟨0, "A"⟩ ⟨1, "B"⟩ (.str "x") ⟨some (.str "x"), 2⟩ (by decide)).1,
   (cross_capability_frame
      (registerImpl ImplMap.empty ⟨0, "A"⟩ (.str "x") ⟨some (.str "x"), 1⟩)
      ⟨0, "A"⟩ ⟨1, "B"⟩ (.str "x") ⟨some (.str "x"), 2⟩ (by decide)).2 (.str "type")
     ⟨fun k => if k = .str "type" then some (.str "x") else none, 7⟩⟩

/-- C5: a descriptor with no static `subtypeId` makes the generated
register function throw the configuration error at registration time, and
the registry is left exactly as it was. -/
theorem registerFn_fail_fast_atomic (p : ProtocolKey) (impl : ImplClass) (m : ImplMap)
    (h : impl.subtypeId = none) :
    runRegister p impl m = (m, some (.error subtypeIdErrorMsg)) := by
  simp [runRegister, generateRegisterImpl, h]

/-- C5 witness: a concrete declaration-less descriptor. -/
theorem registerFn_fail_fast_atomic_witness :
    runRegister ⟨0, "MyApp.Listable"⟩ ⟨none, 1⟩ ImplMap.empty
      = (ImplMap.empty, some (.error subtypeIdErrorMsg)) :=
  registerFn_fail_fast_atomic ⟨0, "MyApp.Listable"⟩ ⟨none, 1⟩ ImplMap.empty rfl

/-- C6: the low-level register operation is total — for any prior state,
also when the capability has no sub-mapping yet, it produces a state whose
sub-mapping for the capability exists, maps the discriminant to the given
factory, keeps every other discriminant of that capability as before
(reading an absent sub-mapping as the lazily created empty one), and leaves
every other capability key untouched. -/
theorem registerImpl_total_stores (m : ImplMap) (p : ProtocolKey) (sid : SubTypeId)
    (f : ImplClass) :
    registerImpl m p sid f p = some (((m p).getD SubtypeMap.empty).set sid f) ∧
    ((m p).getD SubtypeMap.empty).set sid f sid = some f ∧
    (∀ s, s ≠ sid →
      ((m p).getD SubtypeMap.empty).set sid f s = (m p).getD SubtypeMap.empty s) ∧
    ∀ q, q ≠ p → registerImpl m p sid f q = m q := by
  refine ⟨by simp [registerImpl], by simp [SubtypeMap.set],
    fun s hs => by simp [SubtypeMap.set, hs],
    fun q hq => registerImpl_apply_ne m p q sid f hq⟩

/-- C6 witness: registering into an empty registry, where the sub-mapping
is lazily created; an unrelated discriminant and an unrelated capability
stay as before. -/
theorem registerImpl_total_stores_witness :
    registerImpl ImplMap.empty ⟨0, "A"⟩ (.str "a") ⟨some (.str "a"), 1⟩ ⟨0, "A"⟩
      = some (((ImplMap.empty ⟨0, "A"⟩).getD SubtypeMap.empty).set (.str "a")
          ⟨some (.str "a"), 1⟩) ∧
    ((ImplMap.empty ⟨0, "A"⟩).getD SubtypeMap.empty).set (.str "a")
        ⟨some (.str "a"), 1⟩ (.str "a") = some ⟨some (.str "a"), 1⟩ ∧
    ((ImplMap.empty ⟨0, "A"⟩).getD SubtypeMap.empty).set (.str "a")
        ⟨some (.str "a"), 1⟩ (.str "b")
      = (ImplMap.empty ⟨0, "A"⟩).getD SubtypeMap.empty (.str "b") ∧
    registerImpl ImplMap.empty ⟨0, "A"⟩ (.str "a") ⟨some (.str "a"), 1⟩ ⟨1, "B"⟩
      = ImplMap.empty ⟨1, "B"⟩ :=
  ⟨(registerImpl_total_stores ImplMap.empty ⟨0, "A"⟩ (.str "a") ⟨some (.str "a"), 1⟩).1,
   (registerImpl_total_stores ImplMap.empty ⟨0, "A"⟩ (.str "a") ⟨some (.str "a"), 1⟩).2.1,
   (registerImpl_total_stores ImplMap.empty ⟨0, "A"⟩ (.str "a")
      ⟨some (.str "a"), 1⟩).2.2.1 (.str "b") (by decide),
   (registerImpl_total_stores ImplMap.empty ⟨0, "A"⟩ (.str "a")
      ⟨some (.str "a"), 1⟩).2.2.2 ⟨1, "B"⟩ (by decide)⟩

/-- C7: the registry starts empty, and any sequence of register operations
preserves every (capability, discriminant) entry that was present before it
— entries are only ever added or replaced, never removed. -/
theorem registry_monotone_growth (ops : List (ProtocolKey × SubTypeId × ImplClass))
    (m : ImplMap) (p : ProtocolKey) (sid : SubTypeId) :
    ImplMap.empty p = none ∧
    (keyPresent m p sid → keyPresent (applyRegisters ops m) p sid) :=
  ⟨rfl, keyPresent_applyRegisters ops m p sid⟩

/-- C7 witness: an entry present before two further registrations, one of
which replaces it, is still present after them. -/
theorem registry_monotone_growth_witness :
    ImplMap.empty (⟨0, "A"⟩ : ProtocolKey) = none ∧
    keyPresent
      (applyRegisters [(⟨1, "B"⟩, .str "a", ⟨some (.str "a"), 2⟩),
                       (⟨0, "A"⟩, .str "a", ⟨some (.str "a"), 3⟩)]
        (registerImpl ImplMap.empty ⟨0, "A"⟩ (.str "a") ⟨some (.str "a"), 1⟩))
      ⟨0, "A"⟩ (.str "a") :=
  ⟨(registry_monotone_growth [] ImplMap.empty ⟨0, "A"⟩ (.str "a")).1,
   (registry_monotone_growth
      [(⟨1, "B"⟩, .str "a", ⟨some (.str "a"), 2⟩),
       (⟨0, "A"⟩, .str "a", ⟨some (.str "a"), 3⟩)]
      (registerImpl ImplMap.empty ⟨0, "A"⟩ (.str "a") ⟨some (.str "a"), 1⟩)
      ⟨0, "A"⟩ (.str "a")).2
     ⟨SubtypeMap.set SubtypeMap.empty (.str "a") ⟨some (.str "a"), 1⟩, rfl, rfl⟩⟩

/-- C8: resolution never changes the registry; on success the returned
instance wraps the very record that was passed in; and the outcome depends
only on the record's fields (no shape validation: a record with the same
fields and different payload gets the same resolution, wrapping itself). -/
theorem getImpl_readonly_copyfree (m : ImplMap) (p : ProtocolKey)
    (skey : SubTypingKey) (obj : JsRecord) :
    (runGetImpl m p skey obj).1 = m ∧
    (∀ inst, getImpl m p skey obj = .ok inst → inst.v = obj) ∧
    (∀ obj2 : JsRecord, obj2.fields = obj.fields →
      getImpl m p skey obj2 = (getImpl m p skey obj).map fun i => ⟨i.cls, obj2⟩) := by
  refine ⟨rfl, ?_, ?_⟩
  · intro inst h
    simp only [getImpl] at h
    split at h
    · cases h
    · split at h
      · cases h
      · split at h
        · cases h
        · cases h; rfl
  · intro obj2 hf
    rcases hm : m p with _ | sm
    · simp [getImpl, hm, hf, Except.map]
    · rcases hv : obj.fields skey with _ | sid
      · simp [getImpl, hm, hf, hv, Except.map]
      · rcases hs : sm sid with _ | c <;>
          simp [getImpl, hm, hf, hv, hs, Except.map]

/-- C8 witness: two records sharing the same fields but different payloads;
the registry is untouched, the instance wraps the record itself, and the
second record resolves to the corresponding instance. -/
theorem getImpl_readonly_copyfree_witness :
    (runGetImpl
        (registerImpl ImplMap.empty ⟨0, "A"⟩ (.str "a") ⟨some (.str "a"), 1⟩)
        ⟨0, "A"⟩ (.str "type")
        ⟨fun k => if k = .str "type" then some (.str "a") else none, 7⟩).1
      = registerImpl ImplMap.empty ⟨0, "A"⟩ (.str "a") ⟨some (.str "a"), 1⟩ ∧
    ImplInstance.v ⟨⟨some (.str "a"), 1⟩,
        ⟨fun k => if k = .str "type" then some (.str "a") else none, 7⟩⟩
      = ⟨fun k => if k = .str "type" then some (.str "a") else none, 7⟩ ∧
    getImpl (registerImpl ImplMap.empty ⟨0, "A"⟩ (.str "a") ⟨some (.str "a"), 1⟩)
        ⟨0, "A"⟩ (.str "type")
        ⟨fun k => if k = .str "type" then some (.str "a") else none, 8⟩
      = (getImpl (registerImpl ImplMap.empty ⟨0, "A"⟩ (.str "a") ⟨some (.str "a"), 1⟩)
          ⟨0, "A"⟩ (.str "type")
          ⟨fun k => if k = .str "type" then some (.str "a") else none, 7⟩).map
          fun i => ⟨i.cls, ⟨fun k => if k = .str "type" then some (.str "a") else none, 8⟩⟩ :=
  ⟨(getImpl_readonly_copyfree
      (registerImpl ImplMap.empty ⟨0, "A"⟩ (.str "a") ⟨some (.str "a"), 1⟩)
      ⟨0, "A"⟩ (.str "type")
      ⟨fun k => if k = .str "type" then some (.str "a") else none, 7⟩).1,
   (getImpl_readonly_copyfree
      (registerImpl ImplMap.empty ⟨0, "A"⟩ (.str "a") ⟨some (.str "a"), 1⟩)
      ⟨0, "A"⟩ (.str "type")
      ⟨fun k => if k = .str "type" then some (.str "a") else none, 7⟩).2.1
     ⟨⟨some (.str "a"), 1⟩,
      ⟨fun k => if k = .str "type" then some (.str "a") else none, 7⟩⟩
     (by simp [getImpl, registerImpl, SubtypeMap.set]),
   (getImpl_readonly_copyfree
      (registerImpl ImplMap.empty ⟨0, "A"⟩ (.str "a") ⟨some (.str "a"), 1⟩)
      ⟨0, "A"⟩ (.str "type")
      ⟨fun k => if k = .str "type" then some (.str "a") else none, 7⟩).2.2
     ⟨fun k => if k = .str "type" then some (.str "a") else none, 8⟩ rfl⟩

/-- C9: the generated register function checks JS falsiness of the static
`subtypeId`, so the number 0 and the empty string — both legal values of
`string | number` — are rejected with exactly the same configuration error
as an absent `subtypeId`, leaving the registry unchanged; such a descriptor
can never be registered. -/
theorem falsy_subtypeId_rejected (p : ProtocolKey) (impl : ImplClass) (m : ImplMap)
    (h : impl.subtypeId = some (.str "") ∨ impl.subtypeId = some (.num 0) ∨
      impl.subtypeId = none) :
    runRegister p impl m = (m, some (.error subtypeIdErrorMsg)) := by
  rcases h with h | h | h <;>
    simp [runRegister, generateRegisterImpl, h, StrOrNum.jsFalsy]

/-- C9 witness: descriptors declaring `""`, `0`, and nothing all fail the
same way on the empty registry. -/
theorem falsy_subtypeId_rejected_witness :
    runRegister ⟨0, "A"⟩ ⟨some (.str ""), 1⟩ ImplMap.empty
      = (ImplMap.empty, some (.error subtypeIdErrorMsg)) ∧
    runRegister ⟨0, "A"⟩ ⟨some (.num 0), 2⟩ ImplMap.empty
      = (ImplMap.empty, some (.error subtypeIdErrorMsg)) ∧
    runRegister ⟨0, "A"⟩ ⟨none, 3⟩ ImplMap.empty
      = (ImplMap.empty, some (.error subtypeIdErrorMsg)) :=
  ⟨falsy_subtypeId_rejected ⟨0, "A"⟩ ⟨some (.str ""), 1⟩ ImplMap.empty (Or.inl rfl),
   falsy_subtypeId_rejected ⟨0, "A"⟩ ⟨some (.num 0), 2⟩ ImplMap.empty
     (Or.inr (Or.inl rfl)),
   falsy_subtypeId_rejected ⟨0, "A"⟩ ⟨none, 3⟩ ImplMap.empty (Or.inr (Or.inr rfl))⟩

/-- C10: when the record lacks the discriminant field entirely and the
capability has at least one registered implementation, `getImpl` still
fails — but with the TypeError from calling `toString()` on the undefined
discriminant while building the not-found message, never with an instance,
a null-like value, or the documented lookup Error. -/
theorem missing_discriminant_raises_typeError (m : ImplMap) (p : ProtocolKey)
    (skey : SubTypingKey) (obj : JsRecord) (sm : SubtypeMap) (sid0 : SubTypeId)
    (hm : m p = some sm) (_hone : (sm sid0).isSome) (hobj : obj.fields skey = none) :
    getImpl m p skey obj = .error (.typeError undefinedToStringMsg) ∧
    (∀ inst, getImpl m p skey obj ≠ .ok inst) ∧
    (∀ msg, getImpl m p skey obj ≠ .error (.error msg)) := by
  have h1 : getImpl m p skey obj = .error (.typeError undefinedToStringMsg) := by
    simp [getImpl, hm, hobj]
  refine ⟨h1, fun inst h => ?_, fun msg h => ?_⟩
  · rw [h1] at h; cases h
  · rw [h1] at h; simp at h

/-- C10 witness: a record with no fields at all, against a capability with
one registered implementation. -/
theorem missing_discriminant_raises_typeError_witness :
    getImpl (registerImpl ImplMap.empty ⟨0, "A"⟩ (.str "a") ⟨some (.str "a"), 1⟩)
        ⟨0, "A"⟩ (.str "type") ⟨fun _ => none, 7⟩
      = .error (.typeError undefinedToStringMsg) ∧
    getImpl (registerImpl ImplMap.empty ⟨0, "A"⟩ (.str "a") ⟨some (.str "a"), 1⟩)
        ⟨0, "A"⟩ (.str "type") ⟨fun _ => none, 7⟩
      ≠ .error (.error ("Implementation <undefined> not found")) :=
  ⟨(missing_discriminant_raises_typeError
      (registerImpl ImplMap.empty ⟨0, "A"⟩ (.str "a") ⟨some (.str "a"), 1⟩)
      ⟨0, "A"⟩ (.str "type") ⟨fun _ => none, 7⟩
      (SubtypeMap.set SubtypeMap.empty (.str "a") ⟨some (.str "a"), 1⟩)
      (.str "a") rfl rfl rfl).1,
   (missing_discriminant_raises_typeError
      (registerImpl ImplMap.empty ⟨0, "A"⟩ (.str "a") ⟨some (.str "a"), 1⟩)
      ⟨0, "A"⟩ (.str "type") ⟨fun _ => none, 7⟩
      (SubtypeMap.set SubtypeMap.empty (.str "a") ⟨some (.str "a"), 1⟩)
      (.str "a") rfl rfl rfl).2.2 "Implementation <undefined> not found"⟩

end Pojopoly
